import Mathlib

/-!
Shallow embedding of the cooling-load estimator core (`app.py` of the
cooling-loads repository): the reference-data row validator
(`BuildingData`), the load calculator (`compute_results`,
`compute_range_results`), the CSV override block, and the project
persistence functions (`save_project`, `load_project_config`,
`delete_project`, and the project-listing summary block).

Numeric values are modelled as rationals; all concrete rates and areas
appearing in the source scenarios are exactly representable, and the
engine applies no rounding, so rational arithmetic mirrors the source
formulas exactly.
-/

/-- One raw cell of the tabular source as produced by
`pd.read_csv(path, dtype=str)`: every cell is either a string or a
pandas NaN (a blank cell). -/
inductive RawCell
  | strV (s : String)
  | nanV
deriving DecidableEq

/-- Models the before-validator `convert_empty_to_none` of `BuildingData`
applied to one cell: the empty string and NaN become absent (`none`);
any other string is kept. -/
def normalizeCell : RawCell → Option String
  | .strV s => if s = "" then none else some s
  | .nanV => none

/-- Splits a character list at the first decimal point, if any; the
remainder after the point is returned verbatim. -/
def splitDot : List Char → List Char × Option (List Char)
  | [] => ([], none)
  | c :: rest =>
      if c = '.' then ([], some rest)
      else
        let p := splitDot rest
        (c :: p.1, p.2)

/-- Reads a digit string as a natural number; fails on any non-digit.
The empty list reads as zero (callers guard emptiness themselves). -/
def digitsVal (cs : List Char) : Option Nat :=
  cs.foldl (fun acc c =>
    match acc with
    | some n => if c.isDigit then some (n * 10 + (c.toNat - 48)) else none
    | none => none) (some 0)

/-- Models the Python float coercion that pydantic applies to a present
rate cell, on plain decimal literals: an optional minus sign, an integer
part, and an optional fractional part after one decimal point. Any
string outside this grammar is non-numeric and fails coercion. -/
def parseRat (s : String) : Option ℚ :=
  let cs := s.toList
  let signAndBody : Bool × List Char :=
    match cs with
    | '-' :: rest => (true, rest)
    | _ => (false, cs)
  let neg := signAndBody.1
  let p := splitDot signAndBody.2
  match p.2 with
  | none =>
      if p.1.isEmpty then none
      else
        match digitsVal p.1 with
        | some n => some (if neg then -(n : ℚ) else (n : ℚ))
        | none => none
  | some fp =>
      if p.1.isEmpty && fp.isEmpty then none
      else
        match digitsVal p.1, digitsVal fp with
        | some i, some f =>
            let q : ℚ := (i : ℚ) + (f : ℚ) / ((10 : ℚ) ^ fp.length)
            some (if neg then -q else q)
        | _, _ => none

/-- Building data model (`class BuildingData` in `app.py`): one validated
reference-data row. Every rate field is optional; a missing value is
`none`, never zero. The supply and internal-CFM fields are carried but
not consumed by the calculator. -/
structure BuildingData where
  building_type : String
  refrig_low : Option ℚ
  refrig_avg : Option ℚ
  refrig_high : Option ℚ
  occupancy_low : Option ℚ
  occupancy_avg : Option ℚ
  occupancy_high : Option ℚ
  electrical_low : Option ℚ
  electrical_avg : Option ℚ
  electrical_high : Option ℚ
  supply_esw_low : Option ℚ
  supply_esw_avg : Option ℚ
  supply_esw_high : Option ℚ
  supply_north_low : Option ℚ
  supply_north_avg : Option ℚ
  supply_north_high : Option ℚ
  internalcfm_low : Option ℚ
  internalcfm_avg : Option ℚ
  internalcfm_high : Option ℚ
deriving DecidableEq

/-- One raw input row: the nineteen recognized columns of the tabular
source, each as a raw cell. -/
structure RawRow where
  building_type : RawCell
  refrig_low : RawCell
  refrig_avg : RawCell
  refrig_high : RawCell
  occupancy_low : RawCell
  occupancy_avg : RawCell
  occupancy_high : RawCell
  electrical_low : RawCell
  electrical_avg : RawCell
  electrical_high : RawCell
  supply_esw_low : RawCell
  supply_esw_avg : RawCell
  supply_esw_high : RawCell
  supply_north_low : RawCell
  supply_north_avg : RawCell
  supply_north_high : RawCell
  internalcfm_low : RawCell
  internalcfm_avg : RawCell
  internalcfm_high : RawCell
deriving DecidableEq

/-- How a whole row fails validation: the building-type field is empty
after normalization (pydantic rejects `None` for the required `str`
field), or some present rate cell is non-numeric. -/
inductive ValErr
  | missingBuildingType
  | nonNumeric
deriving DecidableEq

/-- Pydantic coercion of one optional rate field: an absent (normalized)
cell is accepted as `none`; a present cell must parse as a number,
otherwise the field is invalid and the whole row fails. -/
def coerceRate (c : RawCell) : Except ValErr (Option ℚ) :=
  match normalizeCell c with
  | none => .ok none
  | some s =>
      match parseRat s with
      | some q => .ok (some q)
      | none => .error .nonNumeric

/-- Whether one rate cell coerces (absent or numeric). -/
def cellOk (c : RawCell) : Bool :=
  match coerceRate c with
  | .ok _ => true
  | .error _ => false

/-- The coerced value of one rate cell, when it coerces. -/
def coerceOr (c : RawCell) : Option ℚ :=
  match coerceRate c with
  | .ok v => v
  | .error _ => none

/-- The eighteen optional rate cells of a row, in declaration order. -/
def rateCells (r : RawRow) : List RawCell :=
  [r.refrig_low, r.refrig_avg, r.refrig_high,
   r.occupancy_low, r.occupancy_avg, r.occupancy_high,
   r.electrical_low, r.electrical_avg, r.electrical_high,
   r.supply_esw_low, r.supply_esw_avg, r.supply_esw_high,
   r.supply_north_low, r.supply_north_avg, r.supply_north_high,
   r.internalcfm_low, r.internalcfm_avg, r.internalcfm_high]

/-- Models `BuildingData(**row.to_dict())`: the before-validator first
normalizes blank and NaN cells to absent in every field; the row then
fails when the normalized building-type field is empty, or when any
present rate cell fails numeric coercion; otherwise it yields the typed
record with absent rates as `none`. -/
def validate (r : RawRow) : Except ValErr BuildingData :=
  match normalizeCell r.building_type with
  | none => .error .missingBuildingType
  | some bt =>
      if (rateCells r).all cellOk then
        .ok { building_type := bt
            , refrig_low := coerceOr r.refrig_low
            , refrig_avg := coerceOr r.refrig_avg
            , refrig_high := coerceOr r.refrig_high
            , occupancy_low := coerceOr r.occupancy_low
            , occupancy_avg := coerceOr r.occupancy_avg
            , occupancy_high := coerceOr r.occupancy_high
            , electrical_low := coerceOr r.electrical_low
            , electrical_avg := coerceOr r.electrical_avg
            , electrical_high := coerceOr r.electrical_high
            , supply_esw_low := coerceOr r.supply_esw_low
            , supply_esw_avg := coerceOr r.supply_esw_avg
            , supply_esw_high := coerceOr r.supply_esw_high
            , supply_north_low := coerceOr r.supply_north_low
            , supply_north_avg := coerceOr r.supply_north_avg
            , supply_north_high := coerceOr r.supply_north_high
            , internalcfm_low := coerceOr r.internalcfm_low
            , internalcfm_avg := coerceOr r.internalcfm_avg
            , internalcfm_high := coerceOr r.internalcfm_high }
      else .error .nonNumeric

/-- Design parameters model (`class DesignParams`). -/
structure DesignParams where
  refrig : ℚ
  occupancy : ℚ
  electrical : ℚ
deriving DecidableEq

/-- Results model (`class Results`). -/
structure Results where
  tonnage : ℚ
  total_occupancy : ℚ
  electrical_kw : ℚ
  design_params : DesignParams
deriving DecidableEq

/-- Results model for all three load levels (`class RangeResults`). -/
structure RangeResults where
  low : Results
  avg : Results
  high : Results
deriving DecidableEq

/-- Complete project configuration model (`class ProjectConfig`). -/
structure ProjectConfig where
  project_name : String
  selected_building_types : List String
  current_building_type : String
  square_footage : Int
  range_results : RangeResults
  created_at : String
  updated_at : String
deriving DecidableEq

/-- The exact-match lookup used by `compute_results`:
`next((b for b in validated_data if b.building_type==building_type), None)`. -/
def lookup (data : List BuildingData) (building_type : String) : Option BuildingData :=
  data.find? (fun b => b.building_type == building_type)

/-- How one `compute_results` call fails, by the distinct observable
outcomes of the source: `invalidLoadLevel` is the raised
`ValueError("Invalid load level")`; `missingData` is the raised
`ValueError("Selected building type/load has missing data")`;
`zeroDivision` is the uncaught `ZeroDivisionError` raised by
`float(area) / r` or `float(area) / o` when that rate is zero (the
source has no zero-rate validation). A `None` return of the Python
function is modelled as `Except.ok none`. -/
inductive ComputeErr
  | invalidLoadLevel
  | missingData
  | zeroDivision
deriving DecidableEq

/-- Models `getattr(bd, f"refrig_{level_lower}")`. -/
def refrigOf (bd : BuildingData) (level : String) : Option ℚ :=
  if level == "Low" then bd.refrig_low
  else if level == "Avg" then bd.refrig_avg
  else if level == "High" then bd.refrig_high
  else none

/-- Models `getattr(bd, f"occupancy_{level_lower}")`. -/
def occupancyOf (bd : BuildingData) (level : String) : Option ℚ :=
  if level == "Low" then bd.occupancy_low
  else if level == "Avg" then bd.occupancy_avg
  else if level == "High" then bd.occupancy_high
  else none

/-- Models `getattr(bd, f"electrical_{level_lower}")`. -/
def electricalOf (bd : BuildingData) (level : String) : Option ℚ :=
  if level == "Low" then bd.electrical_low
  else if level == "Avg" then bd.electrical_avg
  else if level == "High" then bd.electrical_high
  else none

/-- Models `compute_results(building_type, area, level)` of `app.py`:
the level string is checked first against the exact spellings `Low`,
`Avg`, `High`; then the building type is looked up (a miss returns
`None`, modelled `.ok none`); then the three tier rates must all be
present; the formulas are `tonnage = area / r`,
`total_occupancy = area / o`, `electrical_kw = area * e / 1000`,
with no rounding. A zero refrigeration or occupancy rate makes the
Python division raise `ZeroDivisionError`, modelled `.error
.zeroDivision`; a zero electrical rate is only multiplied and succeeds. -/
def compute_results (data : List BuildingData) (building_type : String)
    (area : ℚ) (level : String) : Except ComputeErr (Option Results) :=
  if level == "Low" || level == "Avg" || level == "High" then
    match lookup data building_type with
    | none => .ok none
    | some bd =>
        match refrigOf bd level, occupancyOf bd level, electricalOf bd level with
        | some r, some o, some e =>
            if r = 0 ∨ o = 0 then .error .zeroDivision
            else
              .ok (some { tonnage := area / r
                        , total_occupancy := area / o
                        , electrical_kw := area * e / 1000
                        , design_params := { refrig := r, occupancy := o, electrical := e } })
        | _, _, _ => .error .missingData
  else .error .invalidLoadLevel

/-- Models `compute_range_results(building_type, area)` of `app.py`: it
calls `compute_results` for the three levels inside a
`try: ... except Exception: return None` block and also returns `None`
when any single result is `None`; so every raised computation error is
swallowed into an absent result, and a `RangeResults` is returned only
when all three tiers produce a result. -/
def compute_range_results (data : List BuildingData) (building_type : String)
    (area : ℚ) : Option RangeResults :=
  match compute_results data building_type area "Low",
        compute_results data building_type area "Avg",
        compute_results data building_type area "High" with
  | .ok (some l), .ok (some a), .ok (some h) => some { low := l, avg := a, high := h }
  | _, _, _ => none

/-- Models the CSV override block of `app.py`: each uploaded row is
validated, failures are skipped, and `validated_data` is replaced by the
new list only when it is non-empty (`if temp:`); an upload with zero
valid rows leaves the current dataset untouched. -/
def override_dataset (current : List BuildingData) (rows : List RawRow) :
    List BuildingData :=
  let temp := rows.filterMap (fun r => (validate r).toOption)
  if temp.isEmpty then current else temp

/-- Legacy stored results blob: the old record shape holds only the flat
`results` field with tonnage, occupancy and electrical values. -/
structure LegacyResults where
  tonnage : ℚ
  total_occupancy : ℚ
  electrical_kw : ℚ
deriving DecidableEq

/-- One stored DynamoDB item of the CoolingProjects table, keyed by
`(username, project_name)`: a current-schema item carries the serialized
`config` blob (modelled parsed), a legacy item carries only the flat
`results` blob; `created_at` and `updated_at` are mirrored top-level
attributes (`updated_at` may be absent on legacy items). -/
structure StoredItem where
  config : Option ProjectConfig
  results : Option LegacyResults
  created_at : String
  updated_at : Option String
deriving DecidableEq

/-- The keyed store: an association list from `(username, project_name)`
to the stored item, modelling the DynamoDB table. -/
abbrev Store := List ((String × String) × StoredItem)

/-- Models `table.get_item(Key={'username': u, 'project_name': p})`. -/
def getItem (s : Store) (u p : String) : Option StoredItem :=
  (s.find? (fun e => e.1.1 == u && e.1.2 == p)).map (fun e => e.2)

/-- Models `table.put_item`: a full replacement of the item at the key. -/
def putItem (s : Store) (u p : String) (it : StoredItem) : Store :=
  ((u, p), it) :: s.filter (fun e => !(e.1.1 == u && e.1.2 == p))

/-- Models `table.delete_item`: removes the item at the key when present;
a delete of an absent key is a no-op that still succeeds. -/
def deleteItem (s : Store) (u p : String) : Store :=
  s.filter (fun e => !(e.1.1 == u && e.1.2 == p))

/-- Models `save_project` of `app.py` (the authenticated path, with the
current time of the call passed explicitly): the function reads any
existing item at `(username, project_name)`; when it exists and its
`config` blob parses, the stored `created_at` of that blob is carried
forward, otherwise (no item, or the `config` attribute is absent and the
read raises inside the bare `except: pass`) a fresh `created_at` equal
to `now` is used; it then puts a full item whose `config` holds exactly
the passed selection and results, with `updated_at = now`. -/
def save_project (s : Store) (username project_name : String)
    (range_results : RangeResults) (selected_building_types : List String)
    (current_building_type : String) (square_footage : Int) (now : String) :
    Store :=
  let created_at :=
    match getItem s username project_name with
    | some item =>
        match item.config with
        | some cfg => cfg.created_at
        | none => now
    | none => now
  let cfg : ProjectConfig :=
    { project_name := project_name
    , selected_building_types := selected_building_types
    , current_building_type := current_building_type
    , square_footage := square_footage
    , range_results := range_results
    , created_at := created_at
    , updated_at := now }
  putItem s username project_name
    { config := some cfg, results := none, created_at := created_at, updated_at := some now }

/-- The observable outcomes of `load_project_config`: success restores
the parsed configuration; a missing item returns the
`"Project not found"` failure; an item without the `config` attribute
makes `response['Item']['config']` raise a `KeyError` that the
function's `except ClientError` clause does not catch, so the call
crashes with an uncaught exception. -/
inductive LoadOutcome
  | loaded (cfg : ProjectConfig)
  | notFound
  | keyErrorCrash
deriving DecidableEq

/-- Models `load_project_config` of `app.py` (the authenticated path). -/
def load_project_config (s : Store) (username project_name : String) :
    LoadOutcome :=
  match getItem s username project_name with
  | none => .notFound
  | some item =>
      match item.config with
      | none => .keyErrorCrash
      | some cfg => .loaded cfg

/-- Models `delete_project` of `app.py` (the authenticated path): the
function calls `table.delete_item` unconditionally and returns the
success flag `True` with a deleted-successfully message whether or not
an item existed at the key; there is no not-found outcome. -/
def delete_project (s : Store) (username project_name : String) :
    Bool × Store :=
  (true, deleteItem s username project_name)

/-- The summary a stored project gets in the sidebar listing block of
`app.py`: a current-schema item shows the current building type, the
square footage and the average tonnage; a legacy item shows the flat
tonnage, occupancy and electrical values (no selection state); an item
with neither blob is invalid project data. -/
inductive ProjectSummary
  | currentFmt (building_type : String) (sq_ft : Int) (avg_tonnage : ℚ)
  | legacyFmt (tonnage total_occupancy electrical_kw : ℚ)
  | invalidFmt
deriving DecidableEq

/-- Models the per-project branch of the listing block (`if 'config' in
project: ... elif 'results' in project: ... else: ...`). -/
def summarize (item : StoredItem) : ProjectSummary :=
  match item.config with
  | some cfg =>
      .currentFmt cfg.current_building_type cfg.square_footage
        cfg.range_results.avg.tonnage
  | none =>
      match item.results with
      | some r => .legacyFmt r.tonnage r.total_occupancy r.electrical_kw
      | none => .invalidFmt

/-- Models the `is_legacy` flag set by the listing block. -/
def is_legacy (item : StoredItem) : Bool :=
  item.config.isNone && item.results.isSome

/-- Models `load_disabled = is_legacy`: the Load action of the listing
is disabled exactly for legacy items. -/
def load_disabled (item : StoredItem) : Bool :=
  is_legacy item

/-- Whether one tier computation produced a result (the Python call
returned a `Results` value, neither `None` nor a raised error). -/
def tierOk (x : Except ComputeErr (Option Results)) : Bool :=
  match x with
  | .ok (some _) => true
  | _ => false

/-- A reference record carrying only the three avg-tier rates, as in the
Office scenario of the specification. -/
def avgOnlyRecord (bt : String) (ra oa ea : Option ℚ) : BuildingData :=
  { building_type := bt
  , refrig_low := none, refrig_avg := ra, refrig_high := none
  , occupancy_low := none, occupancy_avg := oa, occupancy_high := none
  , electrical_low := none, electrical_avg := ea, electrical_high := none
  , supply_esw_low := none, supply_esw_avg := none, supply_esw_high := none
  , supply_north_low := none, supply_north_avg := none, supply_north_high := none
  , internalcfm_low := none, internalcfm_avg := none, internalcfm_high := none }

/-- The Office scenario record: refrig_avg 300, occupancy_avg 200,
electrical_avg 1.5, low and high tiers absent. -/
def officeRecord : BuildingData := avgOnlyRecord "Office" (some 300) (some 200) (some (3/2))

/-- A record whose avg refrigeration rate is present but zero. -/
def zeroRefrigRecord : BuildingData := avgOnlyRecord "ZeroRefrig" (some 0) (some 200) (some (3/2))

/-- A raw row with every cell blank (pandas NaN). -/
def nanRow : RawRow :=
  { building_type := .nanV
  , refrig_low := .nanV, refrig_avg := .nanV, refrig_high := .nanV
  , occupancy_low := .nanV, occupancy_avg := .nanV, occupancy_high := .nanV
  , electrical_low := .nanV, electrical_avg := .nanV, electrical_high := .nanV
  , supply_esw_low := .nanV, supply_esw_avg := .nanV, supply_esw_high := .nanV
  , supply_north_low := .nanV, supply_north_avg := .nanV, supply_north_high := .nanV
  , internalcfm_low := .nanV, internalcfm_avg := .nanV, internalcfm_high := .nanV }

/-- One concrete computed result set, as stored in a sample project. -/
def sampleResults : Results :=
  { tonnage := 30, total_occupancy := 45, electrical_kw := 27/2
  , design_params := { refrig := 300, occupancy := 200, electrical := 3/2 } }

/-- A sample range for persistence scenarios. -/
def sampleRange : RangeResults :=
  { low := sampleResults, avg := sampleResults, high := sampleResults }

/-- A sample current-schema stored configuration created at `t1`. -/
def cfg0 : ProjectConfig :=
  { project_name := "P1", selected_building_types := ["Office"]
  , current_building_type := "Office", square_footage := 9000
  , range_results := sampleRange, created_at := "t1", updated_at := "t1" }

/-- The stored item holding `cfg0`. -/
def item0 : StoredItem :=
  { config := some cfg0, results := none, created_at := "t1", updated_at := some "t1" }

/-- A store holding one current-schema project of owner `u1`. -/
def store0 : Store := [(("u1", "P1"), item0)]

/-- A legacy flat results blob. -/
def legacyBlob : LegacyResults :=
  { tonnage := 12, total_occupancy := 34, electrical_kw := 5 }

/-- A legacy-schema stored item: only the flat `results` blob, no
versioned `config` attribute. -/
def legacyItem : StoredItem :=
  { config := none, results := some legacyBlob, created_at := "2023-01-01", updated_at := none }

/-- A store holding one legacy-schema project of owner `u1`. -/
def legacyStore : Store := [(("u1", "OldProj"), legacyItem)]

/-- Reading back the key just written by `putItem` yields the new item. -/
theorem getItem_putItem (s : Store) (u p : String) (it : StoredItem) :
    getItem (putItem s u p it) u p = some it := by
  unfold getItem putItem
  rw [List.find?_cons_of_pos]
  · rfl
  · simp

/-- After `deleteItem` the key is absent. -/
theorem getItem_deleteItem (s : Store) (u p : String) :
    getItem (deleteItem s u p) u p = none := by
  unfold getItem deleteItem
  rw [Option.map_eq_none', List.find?_eq_none]
  intro x hx
  rw [List.mem_filter] at hx
  have h2 := hx.2
  simp only [Bool.not_eq_true'] at h2
  simp [h2]

/-- C1: for every building type whose record has the three avg-tier
rates present (nonzero, as the reference data requires positive rates),
the avg-tier computation returns exactly `tonnage = area / refrig_rate`,
`total_occupancy = area / occupancy_rate` and
`electrical_kw = area * electrical_rate / 1000`, with no rounding inside
the engine; and for the same record, computing any valid tier any of
whose three rates (refrigeration, occupancy or electrical) is absent
fails with the missing-data error, the outcome the specification calls
IncompleteRates. -/
theorem compute_results_avg_formula (data : List BuildingData)
    (bt : String) (bd : BuildingData) (area r o e : ℚ)
    (hlook : lookup data bt = some bd)
    (hr : bd.refrig_avg = some r) (ho : bd.occupancy_avg = some o)
    (he : bd.electrical_avg = some e) (hr0 : r ≠ 0) (ho0 : o ≠ 0) :
    compute_results data bt area "Avg" =
      .ok (some { tonnage := area / r, total_occupancy := area / o
                , electrical_kw := area * e / 1000
                , design_params := { refrig := r, occupancy := o, electrical := e } })
    ∧ (∀ level, (level = "Low" ∨ level = "Avg" ∨ level = "High") →
        (refrigOf bd level = none ∨ occupancyOf bd level = none ∨
         electricalOf bd level = none) →
        compute_results data bt area level = .error .missingData) := by
  constructor
  · unfold compute_results
    simp only [hlook, refrigOf, occupancyOf, electricalOf]
    simp only [hr, ho, he]
    simp [hr0, ho0]
  · intro level hlevel habs
    have hcond : (level == "Low" || level == "Avg" || level == "High") = true := by
      rcases hlevel with h | h | h <;> subst h <;> rfl
    unfold compute_results
    rw [if_pos hcond]
    simp only [hlook]
    cases h1 : refrigOf bd level <;> cases h2 : occupancyOf bd level <;>
      cases h3 : electricalOf bd level <;> simp_all

/-- C1 witness: the Office scenario, area 9000, yields tonnage 30,
occupancy 45 and 13.5 kW on the avg tier, and the missing-data failure
on the low tier. -/
theorem compute_results_avg_formula_witness :
    compute_results [officeRecord] "Office" 9000 "Avg" =
      .ok (some { tonnage := 30, total_occupancy := 45, electrical_kw := 27/2
                , design_params := { refrig := 300, occupancy := 200, electrical := 3/2 } })
    ∧ compute_results [officeRecord] "Office" 9000 "Low" = .error .missingData := by
  have h := compute_results_avg_formula [officeRecord] "Office" officeRecord 9000 300 200 (3/2)
    rfl rfl rfl rfl (by norm_num) (by norm_num)
  constructor
  · rw [h.1]; norm_num
  · exact h.2 "Low" (Or.inl rfl) (Or.inl rfl)

/-- C2 counterexample: with a record whose avg refrigeration rate is
present but zero, the avg computation does not fail with a validated
InvalidRate error — there is no such validation in the source — it hits
the uncaught `ZeroDivisionError` of `float(area) / r`, a runtime crash. -/
theorem compute_results_zero_refrig_rate_cex :
    compute_results [zeroRefrigRecord] "ZeroRefrig" 9000 "Avg" = .error .zeroDivision := by
  rfl

/-- C2 amended: for every building type and every valid tier, a zero
refrigeration or occupancy rate makes the computation raise an uncaught
`ZeroDivisionError` (modelled `.error .zeroDivision`) — there is no
InvalidRate validation; a zero electrical rate is only multiplied, so
the computation succeeds with `electrical_kw = 0`; and `area = 0` with
all three rates present and nonzero succeeds and returns an all-zero
result. -/
theorem compute_results_zero_rate_semantics (data : List BuildingData)
    (bt : String) (bd : BuildingData) (area r o e : ℚ) (level : String)
    (hlevel : level = "Low" ∨ level = "Avg" ∨ level = "High")
    (hlook : lookup data bt = some bd)
    (hr : refrigOf bd level = some r) (ho : occupancyOf bd level = some o)
    (he : electricalOf bd level = some e) :
    ((r = 0 ∨ o = 0) → compute_results data bt area level = .error .zeroDivision)
    ∧ (r ≠ 0 → o ≠ 0 → e = 0 →
        compute_results data bt area level =
          .ok (some { tonnage := area / r, total_occupancy := area / o
                    , electrical_kw := 0
                    , design_params := { refrig := r, occupancy := o, electrical := 0 } }))
    ∧ (r ≠ 0 → o ≠ 0 → area = 0 →
        compute_results data bt area level =
          .ok (some { tonnage := 0, total_occupancy := 0, electrical_kw := 0
                    , design_params := { refrig := r, occupancy := o, electrical := e } })) := by
  have hcond : (level == "Low" || level == "Avg" || level == "High") = true := by
    rcases hlevel with h | h | h <;> subst h <;> rfl
  refine ⟨?_, ?_, ?_⟩
  · intro hzero
    unfold compute_results
    rw [if_pos hcond]
    simp only [hlook, hr, ho, he]
    simp [hzero]
  · intro hr0 ho0 he0
    subst he0
    unfold compute_results
    rw [if_pos hcond]
    simp only [hlook, hr, ho, he]
    simp [hr0, ho0]
  · intro hr0 ho0 ha0
    subst ha0
    unfold compute_results
    rw [if_pos hcond]
    simp only [hlook, hr, ho, he]
    simp [hr0, ho0]

/-- C2 witness: the Office record with area 0 yields the all-zero
result on the avg tier. -/
theorem compute_results_zero_rate_semantics_witness :
    compute_results [officeRecord] "Office" 0 "Avg" =
      .ok (some { tonnage := 0, total_occupancy := 0, electrical_kw := 0
                , design_params := { refrig := 300, occupancy := 200, electrical := 3/2 } }) := by
  have h := compute_results_zero_rate_semantics [officeRecord] "Office" officeRecord 0 300 200 (3/2)
    "Avg" (Or.inr (Or.inl rfl)) rfl rfl rfl rfl
  exact h.2.2 (by norm_num) (by norm_num) rfl

/-- C3 counterexample: in the Office scenario the low tier fails with
the missing-data error (IncompleteRates), yet `compute_range_results`
returns `None` — the error is swallowed into an absent result rather
than propagated to the caller. -/
theorem compute_range_results_swallows_error_cex :
    compute_results [officeRecord] "Office" 9000 "Low" = .error .missingData
    ∧ compute_range_results [officeRecord] "Office" 9000 = none := by
  exact ⟨rfl, rfl⟩

/-- C3 amended: `compute_range_results` produces a `RangeResults` if and
only if all three single-tier computations produce a result, and no
partially filled `RangeResults` exists; but a failing tier does not
propagate its error — whenever any of the three tiers fails with a
raised error, `compute_range_results` returns `None`, swallowing the
error. -/
theorem compute_range_results_all_or_nothing (data : List BuildingData)
    (bt : String) (area : ℚ) :
    ((compute_range_results data bt area).isSome =
      (tierOk (compute_results data bt area "Low") &&
       tierOk (compute_results data bt area "Avg") &&
       tierOk (compute_results data bt area "High")))
    ∧ (∀ err : ComputeErr,
        (compute_results data bt area "Low" = .error err ∨
         compute_results data bt area "Avg" = .error err ∨
         compute_results data bt area "High" = .error err) →
        compute_range_results data bt area = none) := by
  unfold compute_range_results tierOk
  rcases hL : compute_results data bt area "Low" with eL | (_ | rL) <;>
    rcases hA : compute_results data bt area "Avg" with eA | (_ | rA) <;>
      rcases hH : compute_results data bt area "High" with eH | (_ | rH) <;>
        simp_all

/-- C3 witness: applying the amended statement to the Office scenario,
where the low tier raises the missing-data error, shows the range
computation collapses to `None`. -/
theorem compute_range_results_all_or_nothing_witness :
    compute_range_results [officeRecord] "Office" 9000 = none := by
  have h := compute_range_results_all_or_nothing [officeRecord] "Office" 9000
  exact h.2 ComputeErr.missingData (Or.inl rfl)

/-- C4: saving again under an owner and project name at which a
current-schema record exists stores a record whose `created_at` is the
one of the existing parsed configuration, whose `updated_at` is the time
of this save call, and whose remaining fields are exactly the arguments
of the save. -/
theorem save_project_preserves_created_at (s : Store) (u p : String)
    (item : StoredItem) (cfg : ProjectConfig) (rr : RangeResults)
    (sel : List String) (cur : String) (sq : Int) (now : String)
    (hget : getItem s u p = some item) (hcfg : item.config = some cfg) :
    getItem (save_project s u p rr sel cur sq now) u p =
      some { config := some { project_name := p
                            , selected_building_types := sel
                            , current_building_type := cur
                            , square_footage := sq
                            , range_results := rr
                            , created_at := cfg.created_at
                            , updated_at := now }
           , results := none
           , created_at := cfg.created_at
           , updated_at := some now } := by
  unfold save_project
  simp only [hget, hcfg]
  exact getItem_putItem s u p _

/-- C4 witness: saving project P1 of owner u1 again at time t2 with the
same selection and results keeps `created_at = t1` and refreshes
`updated_at` to t2. -/
theorem save_project_preserves_created_at_witness :
    getItem (save_project store0 "u1" "P1" sampleRange ["Office"] "Office" 9000 "t2") "u1" "P1" =
      some { config := some { project_name := "P1"
                            , selected_building_types := ["Office"]
                            , current_building_type := "Office"
                            , square_footage := 9000
                            , range_results := sampleRange
                            , created_at := "t1"
                            , updated_at := "t2" }
           , results := none
           , created_at := "t1"
           , updated_at := some "t2" } := by
  exact save_project_preserves_created_at store0 "u1" "P1" item0 cfg0 sampleRange
    ["Office"] "Office" 9000 "t2" rfl rfl

/-- C5: replacing the dataset with an upload in which zero rows validate
leaves the prior dataset untouched: `lookup` answers exactly as before
for every building type. -/
theorem override_zero_valid_rows_keeps_dataset (current : List BuildingData)
    (rows : List RawRow) (h : ∀ r ∈ rows, (validate r).toOption = none) :
    ∀ bt, lookup (override_dataset current rows) bt = lookup current bt := by
  intro bt
  unfold override_dataset
  have hnil : rows.filterMap (fun r => (validate r).toOption) = [] :=
    List.filterMap_eq_nil_iff.mpr h
  rw [hnil]
  rfl

/-- C5 witness: overriding the Office dataset with one all-blank row
changes no lookup answer. -/
theorem override_zero_valid_rows_keeps_dataset_witness :
    lookup (override_dataset [officeRecord] [nanRow]) "Office" =
      lookup [officeRecord] "Office" := by
  refine override_zero_valid_rows_keeps_dataset [officeRecord] [nanRow] ?_ "Office"
  intro r hr
  rw [List.mem_singleton] at hr
  subst hr
  rfl

/-- C6: for a valid level spelling, the computation returns the
no-result outcome (the Python function returns `None`, the outcome the
specification calls UnknownBuildingType) exactly when the dataset has no
record whose building type equals the queried string; the lookup is an
exact string match. -/
theorem compute_results_unknown_building_type (data : List BuildingData)
    (bt : String) (area : ℚ) (level : String)
    (hlevel : level = "Low" ∨ level = "Avg" ∨ level = "High") :
    compute_results data bt area level = .ok none ↔ lookup data bt = none := by
  have hcond : (level == "Low" || level == "Avg" || level == "High") = true := by
    rcases hlevel with h | h | h <;> subst h <;> rfl
  unfold compute_results
  rw [if_pos hcond]
  cases hlook : lookup data bt with
  | none => simp
  | some bd =>
      simp only [reduceCtorEq, iff_false]
      cases hr : refrigOf bd level <;>
        cases ho : occupancyOf bd level <;>
          cases he : electricalOf bd level <;>
            simp only []
      all_goals intro hcontra
      all_goals first
        | exact absurd hcontra (by simp)
        | (rename_i r o e
           revert hcontra
           split <;> simp)

/-- C6 witness: querying an unknown building type on the Office dataset
with a valid level yields the no-result outcome. -/
theorem compute_results_unknown_building_type_witness :
    compute_results [officeRecord] "Unknown Building" 5000 "Avg" = .ok none := by
  exact (compute_results_unknown_building_type [officeRecord] "Unknown Building" 5000 "Avg"
    (Or.inr (Or.inl rfl))).mpr rfl

/-- C7 counterexample: calling the load path directly on a stored record
that has only the legacy flat `results` attribute does not return a
LegacyUnsupported outcome — reading `response['Item']['config']` raises
a `KeyError` that the `except ClientError` clause does not catch, so the
call crashes. -/
theorem load_project_config_legacy_cex :
    load_project_config legacyStore "u1" "OldProj" = .keyErrorCrash := by
  rfl

/-- C7 amended: a direct `load_project_config` call on a legacy-shaped
record crashes with an uncaught `KeyError` rather than returning a
dedicated LegacyUnsupported outcome; the listing block is what shields
it: it marks the record legacy, disables its Load action, and presents
the summary with the flat tonnage, occupancy and electrical values and
no selection state. -/
theorem legacy_record_load_and_summary (s : Store) (u p : String)
    (item : StoredItem) (r : LegacyResults)
    (hget : getItem s u p = some item) (hcfg : item.config = none)
    (hres : item.results = some r) :
    load_project_config s u p = .keyErrorCrash
    ∧ summarize item = .legacyFmt r.tonnage r.total_occupancy r.electrical_kw
    ∧ load_disabled item = true := by
  refine ⟨?_, ?_, ?_⟩
  · unfold load_project_config
    simp [hget, hcfg]
  · unfold summarize
    simp [hcfg, hres]
  · unfold load_disabled is_legacy
    simp [hcfg, hres]

/-- C7 witness: the concrete legacy store exhibits the crash outcome,
the flat legacy summary and the disabled Load action. -/
theorem legacy_record_load_and_summary_witness :
    summarize legacyItem = .legacyFmt 12 34 5 ∧ load_disabled legacyItem = true := by
  have h := legacy_record_load_and_summary legacyStore "u1" "OldProj" legacyItem legacyBlob
    rfl rfl rfl
  exact ⟨h.2.1, h.2.2⟩

/-- C8 counterexample: deleting a key with no record is reported with
the same success flag as deleting an existing record — the caller sees
the deleted-successfully outcome, not a distinct NotFound. -/
theorem delete_project_missing_key_cex :
    getItem ([] : Store) "u1" "Ghost" = none
    ∧ (delete_project ([] : Store) "u1" "Ghost").1 = true
    ∧ (delete_project store0 "u1" "P1").1 = true := by
  exact ⟨rfl, rfl, rfl⟩

/-- C8 amended: `delete_project` always reports success, whether or not
a record existed at the key; the store afterwards has no record at the
key. There is no NotFound outcome on the delete path. -/
theorem delete_project_always_success (s : Store) (u p : String) :
    (delete_project s u p).1 = true
    ∧ getItem (delete_project s u p).2 u p = none := by
  exact ⟨rfl, getItem_deleteItem s u p⟩

/-- C9: validation first normalizes blank and NaN cells to absent; the
row fails with the missing-building-type error exactly when the
normalized building-type cell is empty; with a present building type the
row validates exactly when every rate cell coerces (absent cells are
accepted as missing optionals, and the record then carries exactly the
coerced optional rates), and a present non-numeric rate cell fails the
whole row. -/
theorem validate_normalization_and_failure (r : RawRow) :
    (validate r = .error .missingBuildingType ↔ normalizeCell r.building_type = none)
    ∧ (∀ s, normalizeCell r.building_type = some s →
        ((rateCells r).all cellOk = true →
          validate r = .ok { building_type := s
                           , refrig_low := coerceOr r.refrig_low
                           , refrig_avg := coerceOr r.refrig_avg
                           , refrig_high := coerceOr r.refrig_high
                           , occupancy_low := coerceOr r.occupancy_low
                           , occupancy_avg := coerceOr r.occupancy_avg
                           , occupancy_high := coerceOr r.occupancy_high
                           , electrical_low := coerceOr r.electrical_low
                           , electrical_avg := coerceOr r.electrical_avg
                           , electrical_high := coerceOr r.electrical_high
                           , supply_esw_low := coerceOr r.supply_esw_low
                           , supply_esw_avg := coerceOr r.supply_esw_avg
                           , supply_esw_high := coerceOr r.supply_esw_high
                           , supply_north_low := coerceOr r.supply_north_low
                           , supply_north_avg := coerceOr r.supply_north_avg
                           , supply_north_high := coerceOr r.supply_north_high
                           , internalcfm_low := coerceOr r.internalcfm_low
                           , internalcfm_avg := coerceOr r.internalcfm_avg
                           , internalcfm_high := coerceOr r.internalcfm_high })
        ∧ ((rateCells r).all cellOk = false → validate r = .error .nonNumeric))
    ∧ (normalizeCell (RawCell.strV "") = none ∧ normalizeCell RawCell.nanV = none) := by
  refine ⟨?_, ?_, rfl, rfl⟩
  · unfold validate
    cases hbt : normalizeCell r.building_type with
    | none => simp
    | some bt =>
        simp only [reduceCtorEq, iff_false]
        split <;> simp
  · intro s hs
    unfold validate
    simp only [hs]
    constructor
    · intro hall
      rw [if_pos hall]
    · intro hfail
      rw [if_neg]
      rw [hfail]
      exact Bool.false_ne_true

/-- C9 witness: the all-blank row fails with the missing-building-type
error. -/
theorem validate_normalization_and_failure_witness :
    validate nanRow = .error .missingBuildingType :=
  (validate_normalization_and_failure nanRow).1.mpr rfl

/-- C10: the level argument is matched case-sensitively against exactly
the spellings `Low`, `Avg` and `High`; any other string — including the
lower-case spellings — makes the computation fail with the invalid-load
-level error, regardless of the dataset, before any lookup or
arithmetic. -/
theorem compute_results_invalid_level (data : List BuildingData) (bt : String)
    (area : ℚ) (level : String)
    (h1 : level ≠ "Low") (h2 : level ≠ "Avg") (h3 : level ≠ "High") :
    compute_results data bt area level = .error .invalidLoadLevel := by
  have hcond : ¬ ((level == "Low" || level == "Avg" || level == "High") = true) := by
    simp [h1, h2, h3]
  unfold compute_results
  rw [if_neg hcond]

/-- C10 witness: the lower-case spelling `avg` is rejected even when the
building type exists in the dataset. -/
theorem compute_results_invalid_level_witness :
    compute_results [officeRecord] "Office" 9000 "avg" = .error .invalidLoadLevel := by
  exact compute_results_invalid_level [officeRecord] "Office" 9000 "avg"
    (by decide) (by decide) (by decide)
